import Mathlib

/-!
Shallow embedding of the PBCS_MCP repository:
* `fake_pbcs_server.py` — the Job Lifecycle Simulator (Flask routes
  `execute_job`, `job_status`, `job_details`, plus `require_auth`);
* `pbcs_copilot_mcp.py` — the stdio Tool Gateway (`pbcs_request`,
  `check_client_key`, the five `tool_*` functions, the dispatch loop `main`);
* `pbcs_copilot_mcp_fastmcp.py` — the FastMCP Gateway variant (`req`).

Python dictionaries keyed by job id are modelled as insertion-ordered
association lists; JSON values as the inductive `JVal`; the HTTP transport
collaborator as an explicit `Transport` outcome fed to the request helpers;
wall-clock derived values (timestamps, the millisecond-derived job id) as
explicit parameters.
-/

namespace PBCS

/-- Minimal JSON value model for payloads flowing through the gateways. -/
inductive JVal where
  | null : JVal
  | bool (b : Bool) : JVal
  | num (n : Int) : JVal
  | str (s : String) : JVal
  | arr (xs : List JVal) : JVal
  | obj (kvs : List (String × JVal)) : JVal

/-- First-match lookup in an insertion-ordered association list
(Python `dict.get`). -/
def lookupA {β : Type} : List (String × β) → String → Option β
  | [], _ => none
  | p :: ps, k => if p.1 = k then some p.2 else lookupA ps k

/-- Replace the value stored at an existing key, in place
(Python `d[k] = v` when `k in d`). -/
def updateAssoc {β : Type} (l : List (String × β)) (k : String) (v : β) :
    List (String × β) :=
  l.map (fun p => if p.1 = k then (p.1, v) else p)

/-- Python `d[k] = v`: replace in place when the key exists, otherwise append
at the end (dicts preserve insertion order). -/
def insertAssoc {β : Type} (l : List (String × β)) (k : String) (v : β) :
    List (String × β) :=
  if l.any (fun p => p.1 = k) then updateAssoc l k v else l ++ [(k, v)]

/-- Append one element to the list stored at key `k`
(Python `d[k].append(e)`). -/
def appendAt {β : Type} (l : List (String × List β)) (k : String) (e : β) :
    List (String × List β) :=
  l.map (fun p => if p.1 = k then (p.1, p.2 ++ [e]) else p)

/-- Python list slicing `xs[a : b]` with step 1: negative endpoints count from
the end, endpoints are clamped to `[0, len]`, and an empty slice results when
the clamped stop is not past the clamped start. -/
def pySlice {α : Type} (xs : List α) (a b : Int) : List α :=
  let n : Int := xs.length
  let a' : Nat := if a < 0 then (a + n).toNat else min a.toNat xs.length
  let b' : Nat := if b < 0 then (b + n).toNat else min b.toNat xs.length
  (xs.drop a').take (b' - a')

/-! ## fake_pbcs_server.py — the Job Lifecycle Simulator -/

/-- Log-entry severity strings used by the simulator. -/
inductive Severity where
  | INFO : Severity
  | ERROR : Severity
deriving DecidableEq

/-- One element of `JOB_DETAILS[job_id]`: dict with keys severity, type, row,
message (`row` is always `None` in the simulator; `type` always "MESSAGE"). -/
structure LogEntry where
  severity : Severity
  type : String
  row : Option Int
  message : String
deriving DecidableEq

/-- One record of the `JOBS` table. `percentComplete` is a Python int;
`endTime` is absent until the terminal transition sets it. -/
structure Job where
  jobId : String
  jobType : String
  jobName : String
  status : String
  descriptiveStatus : String
  percentComplete : Int
  startTime : String
  endTime : Option String
  application : String
  parameters : List (String × String)
deriving DecidableEq

/-- The in-memory server state: the `JOBS` dict and the `JOB_DETAILS` dict,
both keyed by job id, as insertion-ordered association lists. -/
structure ServerState where
  jobs : List (String × Job)
  jobDetails : List (String × List LogEntry)
deriving DecidableEq

/-- Request headers the simulator inspects: `X-Auth-Mode`, `X-RateLimit`,
`X-Fail-Job` (absent headers are `none`). -/
structure Headers where
  authMode : Option String
  rateLimit : Option String
  failJob : Option String
deriving DecidableEq

/-- Python `str.lower()`, written as a character map so that the kernel can
evaluate it on literals (`String.toLower` is the same map but irreducible). -/
def lowerStr (s : String) : String := String.mk (s.data.map Char.toLower)

/-- Embeds `require_auth`: header `X-Auth-Mode=failure401` denies with 401,
`failure403` with 403, anything else passes. Returns the `(status, message)`
pair of the denial response, or `none` to proceed. -/
def require_auth (h : Headers) : Option (Nat × String) :=
  let mode := lowerStr (h.authMode.getD "")
  if mode = "failure401" then some (401, "Unauthorized (simulated)")
  else if mode = "failure403" then some (403, "Forbidden (simulated)")
  else none

/-- Python `repr` of the parameters dict, for the second initial log line
(string-valued parameters; `\x7b`/`\x7d` are the literal braces, `\x27` the
quote Python repr uses). -/
def dictRepr (ps : List (String × String)) : String :=
  "\x7b" ++ String.intercalate ", "
    (ps.map (fun p => "\x27" ++ p.1 ++ "\x27: \x27" ++ p.2 ++ "\x27")) ++ "\x7d"

/-- The two log entries `execute_job` seeds `JOB_DETAILS[job_id]` with. -/
def initialLogs (jt jn : String) (params : List (String × String)) :
    List LogEntry :=
  let pr := dictRepr params
  [⟨.INFO, "MESSAGE", none, s!"Job {jn} started."⟩,
   ⟨.INFO, "MESSAGE", none, s!"jobType={jt} parameters={pr}"⟩]

/-- Outcome of `POST .../jobs` (`execute_job`). -/
inductive SubmitResult where
  | authDenied (code : Nat) (message : String) : SubmitResult
  | validationError (message : String) : SubmitResult
  | throttled (message : String) : SubmitResult
  | created (jobId status descriptiveStatus : String) : SubmitResult
deriving DecidableEq

/-- Embeds `execute_job`. `jobType`/`jobName` are the values of
`body.get(...)` (`none` when absent); the Python falsy test `not job_type`
is `getD "" = ""` for string payloads. `now` stands for `now_iso()` and
`jobId` for `str(int(time.time() * 1000))`, both derived from the wall
clock at the call. Returns the HTTP-level outcome and the new state. -/
def execute_job (st : ServerState) (h : Headers) (appname : String)
    (jobType jobName : Option String) (params : List (String × String))
    (now jobId : String) : SubmitResult × ServerState :=
  match require_auth h with
  | some (c, m) => (.authDenied c m, st)
  | none =>
    if jobType.getD "" = "" ∨ jobName.getD "" = "" then
      (.validationError "jobType and jobName are required", st)
    else if lowerStr (h.rateLimit.getD "") = "429" then
      (.throttled "Too Many Requests (simulated)", st)
    else
      let jt := jobType.getD ""
      let jn := jobName.getD ""
      let job : Job :=
        { jobId := jobId, jobType := jt, jobName := jn, status := "RUNNING",
          descriptiveStatus := "RUNNING", percentComplete := 0,
          startTime := now, endTime := none, application := appname,
          parameters := params }
      (.created jobId "RUNNING" "RUNNING",
       { jobs := insertAssoc st.jobs jobId job,
         jobDetails := insertAssoc st.jobDetails jobId (initialLogs jt jn params) })

/-- Outcome of `GET .../jobs/<job_id>` (`job_status`). -/
inductive StatusResult where
  | authDenied (code : Nat) (message : String) : StatusResult
  | notFound (message : String) : StatusResult
  | okJob (job : Job) : StatusResult
deriving DecidableEq

/-- The log entry appended by the simulated-failure transition. -/
def failEntry : LogEntry := ⟨.ERROR, "MESSAGE", none, "Simulated failure occurred."⟩

/-- The log entry appended by the success transition. -/
def succEntry : LogEntry := ⟨.INFO, "MESSAGE", none, "Job completed successfully."⟩

/-- Embeds `job_status`: on a RUNNING job, bump `percentComplete` by 35
capped at 100 as a read side effect; then, in order, the simulated-failure
rule (header `X-Fail-Job=true` and percent ≥ 70 → FAILED) else the success
rule (percent ≥ 100 → SUCCEEDED); a non-RUNNING job is returned unchanged.
`now` stands for `now_iso()` at the call. -/
def job_status (st : ServerState) (h : Headers) (jobId now : String) :
    StatusResult × ServerState :=
  match require_auth h with
  | some (c, m) => (.authDenied c m, st)
  | none =>
    match lookupA st.jobs jobId with
    | none => (.notFound "Job not found", st)
    | some job =>
      if job.status = "RUNNING" then
        let job := { job with percentComplete := min 100 (job.percentComplete + 35) }
        if lowerStr (h.failJob.getD "") = "true" ∧ job.percentComplete ≥ 70 then
          let job := { job with status := "FAILED", descriptiveStatus := "FAILED",
                                endTime := some now }
          (.okJob job,
           { jobs := updateAssoc st.jobs jobId job,
             jobDetails := appendAt st.jobDetails jobId failEntry })
        else if job.percentComplete ≥ 100 then
          let job := { job with status := "SUCCEEDED", descriptiveStatus := "SUCCEEDED",
                                endTime := some now }
          (.okJob job,
           { jobs := updateAssoc st.jobs jobId job,
             jobDetails := appendAt st.jobDetails jobId succEntry })
        else
          (.okJob job, { st with jobs := updateAssoc st.jobs jobId job })
      else
        (.okJob job, st)

/-- Outcome of `GET .../jobs/<job_id>/details` (`job_details`). The success
payload carries `items`, `offset`, `limit`, `count`, `hasMore`. -/
inductive DetailsResult where
  | authDenied (code : Nat) (message : String) : DetailsResult
  | notFound (message : String) : DetailsResult
  | page (items : List LogEntry) (offset limit : Int) (count : Nat)
      (hasMore : Bool) : DetailsResult
deriving DecidableEq

/-- Embeds `job_details`: `page = items[offset : offset + limit]` (Python
slice semantics) and `hasMore = (offset + limit) < len(items)`. The route
reads `offset`/`limit` from the query string with defaults 0 and 200; here
they are explicit `Int` arguments. The route never mutates state. -/
def job_details (st : ServerState) (h : Headers) (jobId : String)
    (offset limit : Int) : DetailsResult :=
  match require_auth h with
  | some (c, m) => .authDenied c m
  | none =>
    match lookupA st.jobDetails jobId with
    | none => .notFound "Job not found"
    | some items =>
      let page := pySlice items offset (offset + limit)
      .page page offset limit page.length (decide (offset + limit < (items.length : Int)))

/-! ## pbcs_copilot_mcp.py — the stdio Tool Gateway -/

/-- Gateway configuration record built by `load_cfg` (the environment lookup
itself is the excluded configuration collaborator; this is the resulting
record). `client_api_key` is `MCP_CLIENT_API_KEY`, absent when unset. -/
structure GwCfg where
  base_url : String
  application : String
  api_version : String
  verify_ssl : Bool
  client_api_key : Option String
  fake_auth_mode : Option String
  fake_rate_limit : Option String
  fake_fail_job : Option String
deriving DecidableEq

/-- The argument mapping a tool call carries; each field is `args.get(key)`
for the only keys the tools ever read (`none` = key absent). -/
structure ToolArgs where
  client_api_key : Option String
  api_version : Option String
  application : Option String
  job_type : Option String
  job_name : Option String
  parameters : Option (List (String × String))
  job_id : Option String
  offset : Option Int
  limit : Option Int
deriving DecidableEq

/-- Outcome of one physical HTTP exchange, the transport collaborator's view:
either `requests.request` raised (connection error / timeout), or it returned
a status code, a raw body (`r.content`/`r.text`, empty string = empty body),
and the result of attempting `r.json()` on that body (`Except.error` carries
the parse exception's message). -/
inductive Transport where
  | fail (message : String) : Transport
  | resp (status : Nat) (content : String) (json : Except String JVal) : Transport

/-- Normalized result of `pbcs_request`: the three `{ok, ...}` dict shapes it
returns. -/
inductive ReqResult where
  | netOrParse (message url : String) : ReqResult
  | httpError (status : Nat) (response : JVal) : ReqResult
  | ok (status : Nat) (response : JVal) : ReqResult

/-- Embeds `pbcs_request` over a transport outcome for the url
`cfg["base_url"] + path`: a raised transport or JSON-parse exception inside
the `try` yields `NETWORK_OR_PARSE_ERROR` with the url and the exception
message; otherwise `payload = r.json() if r.content else {}`, and status
≥ 300 yields `HTTP_ERROR` with the status and payload, status < 300 ok. -/
def pbcs_request (url : String) (t : Transport) : ReqResult :=
  match t with
  | .fail msg => .netOrParse msg url
  | .resp status content json =>
    match (if content = "" then Except.ok (JVal.obj []) else json) with
    | .error msg => .netOrParse msg url
    | .ok payload =>
      if status ≥ 300 then .httpError status payload else .ok status payload

/-- Python `payload.get(k)` on a dict payload (`none` both when the key is
missing and when the payload is not a dict). -/
def jget (j : JVal) (k : String) : Option JVal :=
  match j with
  | .obj kvs => lookupA kvs k
  | _ => none

/-- Python `payload.get(k)` as a JSON value: a missing key is `None`/null. -/
def jgetD (j : JVal) (k : String) : JVal := (jget j k).getD .null

/-- Python truthiness of a JSON value. -/
def jtruthy : JVal → Bool
  | .null => false
  | .bool b => b
  | .num n => n != 0
  | .str s => s != ""
  | .arr xs => !xs.isEmpty
  | .obj kvs => !kvs.isEmpty

/-- Python `x or y` on JSON values. -/
def jor (a b : JVal) : JVal := if jtruthy a then a else b

/-- Python `payload.get("items") or []`, then iterated as a list (upstream
payloads only ever carry lists under "items"; a truthy non-list would raise
in Python and does not occur). -/
def getItems (j : JVal) : List JVal :=
  match jget j "items" with
  | some (.arr xs) => xs
  | _ => []

/-- Embeds `compact_job_defs`. -/
def compact_job_defs (payload : JVal) : JVal :=
  let defs := (getItems payload).map (fun i =>
    JVal.obj [("jobType", jgetD i "jobType"), ("jobName", jgetD i "jobName"),
              ("description", jgetD i "description")])
  JVal.obj [("count", .num defs.length), ("jobDefinitions", .arr defs)]

/-- Embeds `compact_job_submit`. -/
def compact_job_submit (payload : JVal) : JVal :=
  JVal.obj [("jobId", jgetD payload "jobId"),
            ("status", jor (jgetD payload "status") (jgetD payload "descriptiveStatus"))]

/-- Embeds `compact_job_status`. -/
def compact_job_status (payload : JVal) : JVal :=
  JVal.obj [("status", jor (jgetD payload "status") (jgetD payload "descriptiveStatus")),
            ("percentComplete", jgetD payload "percentComplete"),
            ("startTime", jgetD payload "startTime"),
            ("endTime", jgetD payload "endTime"),
            ("jobType", jgetD payload "jobType"),
            ("jobName", jgetD payload "jobName")]

/-- Embeds `compact_job_details`. -/
def compact_job_details (payload : JVal) : JVal :=
  let out := (getItems payload).map (fun i =>
    JVal.obj [("severity", jgetD i "severity"), ("type", jgetD i "type"),
              ("row", jgetD i "row"), ("message", jgetD i "message")])
  JVal.obj [("count", .num out.length), ("items", .arr out),
            ("hasMore", (jget payload "hasMore").getD (.bool false))]

/-- The result value a tool function returns to the dispatch loop: the
distinct `{...}` dict shapes of `pbcs_copilot_mcp.py`. -/
inductive ToolResult where
  | unauthorizedClient : ToolResult
  | badArguments (message : String) : ToolResult
  | fromReq (r : ReqResult) : ToolResult
  | okCompact (jobId : Option String) (offset limit : Option Int)
      (compacted : JVal) : ToolResult

/-- Embeds `check_client_key`: deny exactly when the configured key is truthy
(present and non-empty) and the supplied `client_api_key` argument differs
from it (an absent argument is `None`, which differs from any truthy key). -/
def check_client_key (cfg : GwCfg) (args : ToolArgs) : Option ToolResult :=
  if cfg.client_api_key.getD "" ≠ "" ∧ args.client_api_key ≠ cfg.client_api_key
  then some .unauthorizedClient else none

/-- One outbound remote call as issued by a tool: the HTTP method, the path
appended to the base url, the query parameters (offset, limit — only for
details) and the submission body (jobType, jobName, parameters — only for
execute). -/
structure RCall where
  method : String
  path : String
  query : Option (Int × Int) := none
  body : Option (String × String × List (String × String)) := none

/-- Python `a or b` for optional strings with string truthiness: an absent or
empty value falls back to the default (used for `args.get("api_version") or
cfg["api_version"]` and the application default). -/
def strOr (a : Option String) (b : String) : String :=
  match a with
  | some s => if s ≠ "" then s else b
  | none => b

/-- Issue one remote call through the transport oracle and record it. The
oracle stands for the composed behavior of the HTTP stack and the server;
`pbcs_request` sees the url `cfg["base_url"] + path`. -/
def runReq (cfg : GwCfg) (t : RCall → Transport) (call : RCall) :
    ReqResult × List RCall :=
  (pbcs_request (cfg.base_url ++ call.path) (t call), [call])

/-- The shared tail of the four compacting tools: Python
`if not res.get("ok"): return res` followed by the ok-shaped return — the
failure shape passes through unchanged, the success payload is compacted. -/
def compactOr (r : ReqResult) (f : JVal → ToolResult) : ToolResult :=
  match r with
  | .ok _ payload => f payload
  | _ => .fromReq r

/-- Embeds `tool_discover_versions`: credential gate, then one GET whose
`pbcs_request` result is returned unchanged. -/
def tool_discover_versions (cfg : GwCfg) (args : ToolArgs)
    (t : RCall → Transport) : ToolResult × List RCall :=
  match check_client_key cfg args with
  | some deny => (deny, [])
  | none =>
    let (r, cs) := runReq cfg t { method := "GET", path := "/HyperionPlanning/rest/" }
    (.fromReq r, cs)

/-- Embeds `tool_list_job_definitions`: gate, defaulted version/application,
one GET, compaction on success, passthrough of the failure shape otherwise. -/
def tool_list_job_definitions (cfg : GwCfg) (args : ToolArgs)
    (t : RCall → Transport) : ToolResult × List RCall :=
  match check_client_key cfg args with
  | some deny => (deny, [])
  | none =>
    let v := strOr args.api_version cfg.api_version
    let app := strOr args.application cfg.application
    let (r, cs) := runReq cfg t
      { method := "GET", path := s!"/HyperionPlanning/rest/{v}/applications/{app}/jobdefinitions" }
    (compactOr r (fun payload => .okCompact none none none (compact_job_defs payload)), cs)

/-- Embeds `tool_execute_job`: gate, then `BAD_ARGUMENTS` when `job_type` or
`job_name` is falsy, else one POST carrying the body, compacted on success. -/
def tool_execute_job (cfg : GwCfg) (args : ToolArgs)
    (t : RCall → Transport) : ToolResult × List RCall :=
  match check_client_key cfg args with
  | some deny => (deny, [])
  | none =>
    let v := strOr args.api_version cfg.api_version
    let app := strOr args.application cfg.application
    if args.job_type.getD "" = "" ∨ args.job_name.getD "" = "" then
      (.badArguments "job_type and job_name are required", [])
    else
      let jt := args.job_type.getD ""
      let jn := args.job_name.getD ""
      let ps := args.parameters.getD []
      let (r, cs) := runReq cfg t
        { method := "POST", path := s!"/HyperionPlanning/rest/{v}/applications/{app}/jobs",
          body := some (jt, jn, ps) }
      (compactOr r (fun payload => .okCompact none none none (compact_job_submit payload)), cs)

/-- Embeds `tool_get_job_status`: gate, `BAD_ARGUMENTS` on a falsy `job_id`,
else one GET, compacted on success with the echoed `jobId`. -/
def tool_get_job_status (cfg : GwCfg) (args : ToolArgs)
    (t : RCall → Transport) : ToolResult × List RCall :=
  match check_client_key cfg args with
  | some deny => (deny, [])
  | none =>
    let v := strOr args.api_version cfg.api_version
    let app := strOr args.application cfg.application
    let jid := args.job_id.getD ""
    if jid = "" then (.badArguments "job_id is required", [])
    else
      let (r, cs) := runReq cfg t
        { method := "GET", path := s!"/HyperionPlanning/rest/{v}/applications/{app}/jobs/{jid}" }
      (compactOr r (fun payload => .okCompact (some jid) none none (compact_job_status payload)), cs)

/-- Embeds `tool_get_job_details`: gate, defaulted `offset`/`limit` (0/200),
`BAD_ARGUMENTS` on a falsy `job_id`, else one GET with the query parameters,
compacted on success with the echoed `jobId`, `offset`, `limit`. -/
def tool_get_job_details (cfg : GwCfg) (args : ToolArgs)
    (t : RCall → Transport) : ToolResult × List RCall :=
  match check_client_key cfg args with
  | some deny => (deny, [])
  | none =>
    let v := strOr args.api_version cfg.api_version
    let app := strOr args.application cfg.application
    let jid := args.job_id.getD ""
    let offset := args.offset.getD 0
    let limit := args.limit.getD 200
    if jid = "" then (.badArguments "job_id is required", [])
    else
      let (r, cs) := runReq cfg t
        { method := "GET",
          path := s!"/HyperionPlanning/rest/{v}/applications/{app}/jobs/{jid}/details",
          query := some (offset, limit) }
      (compactOr r (fun payload => .okCompact (some jid) (some offset) (some limit)
        (compact_job_details payload)), cs)

/-! ## pbcs_copilot_mcp_fastmcp.py — the FastMCP Gateway's request helper -/

/-- Result dict of the FastMCP `req` helper (no NETWORK_OR_PARSE_ERROR shape
exists in this variant). -/
inductive FReqResult where
  | httpError (status : Nat) (response : JVal) : FReqResult
  | ok (status : Nat) (response : JVal) : FReqResult

/-- Embeds the FastMCP `req`: `requests.request` is OUTSIDE any try, so a
transport failure propagates as an uncaught exception (`Except.error`); only
`r.json()` is guarded, a parse failure being replaced by the payload
`{"raw_text": r.text}`; then status ≥ 300 yields `HTTP_ERROR` with that
payload and status < 300 is marked ok with it. -/
def req (t : Transport) : Except String FReqResult :=
  match t with
  | .fail msg => .error msg
  | .resp status content json =>
    let payload :=
      if content = "" then JVal.obj []
      else match json with
        | .ok v => v
        | .error _ => JVal.obj [("raw_text", JVal.str content)]
    if status ≥ 300 then .ok (.httpError status payload)
    else .ok (.ok status payload)

/-! ## pbcs_copilot_mcp.py — the dispatch loop (`main`) -/

/-- One stripped stdin line as the loop sees it: blank (skipped), a line
`json.loads` rejects, or a parsed request object with the only fields the
loop reads: `id`, `method`, `params.name`, `params.arguments` (each `none`
when absent). -/
inductive Line where
  | blank : Line
  | malformed : Line
  | request (id : Option JVal) (method : Option String)
      (name : Option String) (args : ToolArgs) : Line

/-- One response object written by the loop: a protocol-level `error`
response, or a `result` payload — which is an unknown-tool failure dict, a
caught tool-exception failure dict, or the tool's own result. -/
inductive Response where
  | protoError (id : Option JVal) (message : String) : Response
  | unknownTool (id : Option JVal) (tool : Option String) : Response
  | toolException (id : Option JVal) (message : String) : Response
  | toolResult (id : Option JVal) (r : ToolResult) : Response

/-- Embeds one iteration of the `main` loop body over an abstract tool table
(the registry `TOOLS`; a tool may raise, hence `Except`): a blank line is
skipped with no response; a line `json.loads` rejects gets the
`Invalid JSON` protocol error with `id = None`; a method other than
`tools/call` gets a protocol error; an unknown (or absent) tool name gets
the `UNKNOWN_TOOL` failure result; a tool that raises gets the
`TOOL_EXCEPTION` failure result; otherwise the tool's result is sent.
Exactly one response per non-blank line, and the loop never crashes. -/
def dispatch_line (tools : String → Option (ToolArgs → Except String ToolResult)) :
    Line → Option Response
  | .blank => none
  | .malformed => some (.protoError none "Invalid JSON")
  | .request id method name args =>
    if method ≠ some "tools/call" then
      some (.protoError id s!"Unsupported method: {method}")
    else
      match name.bind tools with
      | none => some (.unknownTool id name)
      | some fn =>
        match fn args with
        | .ok r => some (.toolResult id r)
        | .error msg => some (.toolException id msg)

/-- The concrete `TOOLS` registry of `pbcs_copilot_mcp.py`, closed over the
configuration and the transport oracle; the five embedded tool functions are
total, so each is wrapped in `Except.ok` (the dispatch-level catch guards
against faults the embedding cannot exhibit). -/
def TOOLS (cfg : GwCfg) (t : RCall → Transport) :
    String → Option (ToolArgs → Except String ToolResult) :=
  fun n =>
    if n = "planning_discover_versions" then
      some (fun a => .ok (tool_discover_versions cfg a t).1)
    else if n = "planning_list_job_definitions" then
      some (fun a => .ok (tool_list_job_definitions cfg a t).1)
    else if n = "planning_execute_job" then
      some (fun a => .ok (tool_execute_job cfg a t).1)
    else if n = "planning_get_job_status" then
      some (fun a => .ok (tool_get_job_status cfg a t).1)
    else if n = "planning_get_job_details" then
      some (fun a => .ok (tool_get_job_details cfg a t).1)
    else none

/-- The job-record invariant of the simulator: `status` and
`descriptiveStatus` are equal and drawn from {RUNNING, SUCCEEDED, FAILED};
`endTime` is set exactly on the terminal statuses; `percentComplete` stays
within 0–100. -/
def jobWF (j : Job) : Prop :=
  j.status = j.descriptiveStatus ∧
  (j.status = "RUNNING" ∨ j.status = "SUCCEEDED" ∨ j.status = "FAILED") ∧
  (j.endTime.isSome = true ↔ (j.status = "SUCCEEDED" ∨ j.status = "FAILED")) ∧
  0 ≤ j.percentComplete ∧ j.percentComplete ≤ 100

/-- Every record in the `JOBS` table satisfies the job-record invariant. -/
def stateWF (st : ServerState) : Prop := ∀ p ∈ st.jobs, jobWF p.2

instance (j : Job) : Decidable (jobWF j) := by
  unfold jobWF
  infer_instance

instance (st : ServerState) : Decidable (stateWF st) := by
  unfold stateWF
  infer_instance

/-! ## Helper lemmas on the dict and slice models -/

theorem lookupA_mem {β : Type} {l : List (String × β)} {k : String} {v : β}
    (h : lookupA l k = some v) : (k, v) ∈ l := by
  induction l with
  | nil => simp [lookupA] at h
  | cons p ps ih =>
    simp only [lookupA] at h
    by_cases hp : p.1 = k
    · rw [if_pos hp] at h
      injection h with h
      subst hp; subst h
      exact List.mem_cons_self _ _
    · rw [if_neg hp] at h
      exact List.mem_cons_of_mem _ (ih h)

theorem lookupA_updateAssoc {β : Type} (l : List (String × β)) (k : String)
    (v : β) : lookupA (updateAssoc l k v) k = (lookupA l k).map (fun _ => v) := by
  induction l with
  | nil => simp [lookupA, updateAssoc]
  | cons p ps ih =>
    by_cases hp : p.1 = k
    · simp [lookupA, updateAssoc, hp]
    · simpa [lookupA, updateAssoc, hp] using ih

theorem lookupA_appendAt {β : Type} (l : List (String × List β)) (k : String)
    (e : β) : lookupA (appendAt l k e) k = (lookupA l k).map (fun es => es ++ [e]) := by
  induction l with
  | nil => simp [lookupA, appendAt]
  | cons p ps ih =>
    by_cases hp : p.1 = k
    · simp [lookupA, appendAt, hp]
    · simpa [lookupA, appendAt, hp] using ih

theorem any_eq_false_of_lookupA_none {β : Type} {l : List (String × β)}
    {k : String} (h : lookupA l k = none) : l.any (fun p => p.1 = k) = false := by
  induction l with
  | nil => simp
  | cons p ps ih =>
    simp only [lookupA] at h
    by_cases hp : p.1 = k
    · rw [if_pos hp] at h; exact absurd h (by simp)
    · rw [if_neg hp] at h
      simp [hp, ih h]

theorem insertAssoc_of_fresh {β : Type} {l : List (String × β)} {k : String}
    (v : β) (h : lookupA l k = none) : insertAssoc l k v = l ++ [(k, v)] := by
  unfold insertAssoc
  rw [any_eq_false_of_lookupA_none h]
  simp

theorem lookupA_append_fresh {β : Type} {l : List (String × β)} {k : String}
    (v : β) (h : lookupA l k = none) : lookupA (l ++ [(k, v)]) k = some v := by
  induction l with
  | nil => simp [lookupA]
  | cons p ps ih =>
    simp only [lookupA] at h ⊢
    by_cases hp : p.1 = k
    · rw [if_pos hp] at h; exact absurd h (by simp)
    · rw [if_neg hp] at h ⊢
      exact ih h

theorem mem_updateAssoc {β : Type} {l : List (String × β)} {k : String}
    {v : β} {p : String × β} (h : p ∈ updateAssoc l k v) : p.2 = v ∨ p ∈ l := by
  unfold updateAssoc at h
  rcases List.mem_map.mp h with ⟨q, hq, hqe⟩
  by_cases hk : q.1 = k
  · rw [if_pos hk] at hqe
    left; rw [← hqe]
  · rw [if_neg hk] at hqe
    right; rw [← hqe]; exact hq

theorem pySlice_nonneg {α : Type} (xs : List α) (a b : Int) (ha : 0 ≤ a)
    (hb : 0 ≤ b) : pySlice xs a b = (xs.drop a.toNat).take (b.toNat - a.toNat) := by
  simp only [pySlice]
  rw [if_neg (by omega), if_neg (by omega)]
  rcases le_or_lt a.toNat xs.length with hp | hp
  · rw [min_eq_left hp]
    rcases le_or_lt b.toNat xs.length with hq | hq
    · rw [min_eq_left hq]
    · rw [min_eq_right (le_of_lt hq)]
      have hlen : (xs.drop a.toNat).length = xs.length - a.toNat := List.length_drop _ _
      rw [List.take_of_length_le (by omega), List.take_of_length_le (by omega)]
  · rw [min_eq_right (le_of_lt hp)]
    rw [List.drop_length, List.drop_eq_nil_of_le (le_of_lt hp)]
    simp

theorem pySlice_offset_past_end {α : Type} (xs : List α) (a b : Int)
    (hb : 0 ≤ b) (ha : (xs.length : Int) ≤ a) : pySlice xs a b = [] := by
  have ha0 : 0 ≤ a := by omega
  rw [pySlice_nonneg xs a b ha0 hb]
  rw [List.drop_eq_nil_of_le (by omega)]
  simp

theorem pySlice_neg_start_to_end {α : Type} (xs : List α) (a b : Int)
    (ha : a < 0) (ha2 : 0 ≤ a + xs.length) (hb : (xs.length : Int) ≤ b) :
    pySlice xs a b = xs.drop (a + xs.length).toNat := by
  simp only [pySlice]
  rw [if_pos ha, if_neg (by omega), min_eq_right (by omega)]
  apply List.take_of_length_le
  rw [List.length_drop]

theorem mem_insertAssoc {β : Type} {l : List (String × β)} {k : String}
    {v : β} {p : String × β} (h : p ∈ insertAssoc l k v) : p.2 = v ∨ p ∈ l := by
  unfold insertAssoc at h
  by_cases hc : l.any (fun q => q.1 = k)
  · rw [if_pos hc] at h
    exact mem_updateAssoc h
  · rw [if_neg hc] at h
    rcases List.mem_append.mp h with h | h
    · right; exact h
    · left
      rcases List.mem_singleton.mp h with rfl
      rfl


theorem job_status_auth_denied (st : ServerState) (h : Headers)
    (jobId now : String) (c : Nat) (m : String)
    (hA : require_auth h = some (c, m)) :
    job_status st h jobId now = (.authDenied c m, st) := by
  simp only [job_status, hA]

theorem job_status_not_found (st : ServerState) (h : Headers)
    (jobId now : String) (hA : require_auth h = none)
    (hL : lookupA st.jobs jobId = none) :
    job_status st h jobId now = (.notFound "Job not found", st) := by
  simp only [job_status, hA, hL]

theorem job_status_of_not_running (st : ServerState) (h : Headers)
    (jobId now : String) (j : Job) (hA : require_auth h = none)
    (hL : lookupA st.jobs jobId = some j) (hterm : ¬j.status = "RUNNING") :
    job_status st h jobId now = (.okJob j, st) := by
  simp only [job_status, hA, hL]
  rw [if_neg hterm]

theorem job_status_running_eq (st : ServerState) (h : Headers)
    (jobId now : String) (j : Job) (hA : require_auth h = none)
    (hL : lookupA st.jobs jobId = some j) (hrun : j.status = "RUNNING") :
    job_status st h jobId now =
      if lowerStr (h.failJob.getD "") = "true" ∧ min 100 (j.percentComplete + 35) ≥ 70 then
        (.okJob { j with percentComplete := min 100 (j.percentComplete + 35),
                         status := "FAILED", descriptiveStatus := "FAILED",
                         endTime := some now },
         { jobs :=
             updateAssoc st.jobs jobId
               ({ j with percentComplete := min 100 (j.percentComplete + 35),
                         status := "FAILED", descriptiveStatus := "FAILED",
                         endTime := some now }),
           jobDetails := appendAt st.jobDetails jobId failEntry })
      else if min 100 (j.percentComplete + 35) ≥ 100 then
        (.okJob { j with percentComplete := min 100 (j.percentComplete + 35),
                         status := "SUCCEEDED", descriptiveStatus := "SUCCEEDED",
                         endTime := some now },
         { jobs :=
             updateAssoc st.jobs jobId
               ({ j with percentComplete := min 100 (j.percentComplete + 35),
                         status := "SUCCEEDED", descriptiveStatus := "SUCCEEDED",
                         endTime := some now }),
           jobDetails := appendAt st.jobDetails jobId succEntry })
      else
        (.okJob { j with percentComplete := min 100 (j.percentComplete + 35) },
         { st with
             jobs := updateAssoc st.jobs jobId
               ({ j with percentComplete := min 100 (j.percentComplete + 35) }) }) := by
  simp only [job_status, hA, hL]
  rw [if_pos hrun]

/-! ## Claim theorems -/

/-- C1: polling `job_status` on a RUNNING job with no failure signal raises
`percentComplete` by exactly 35 capped at 100 as a side effect of the read;
while the capped value stays below 100 the job remains RUNNING with only the
stored percent changed and no log entry appended; on the poll at which it
reaches 100 the job transitions to SUCCEEDED, `endTime` is set, and exactly
one additional INFO entry "Job completed successfully." is appended. -/
theorem C1_poll_progress_and_success (st : ServerState) (h : Headers)
    (jobId now : String) (j : Job) (logs : List LogEntry)
    (hauth : require_auth h = none)
    (hnofail : lowerStr (h.failJob.getD "") ≠ "true")
    (hjob : lookupA st.jobs jobId = some j)
    (hlogs : lookupA st.jobDetails jobId = some logs)
    (hrun : j.status = "RUNNING") :
    (∃ j', (job_status st h jobId now).1 = .okJob j' ∧
      j'.percentComplete = min 100 (j.percentComplete + 35)) ∧
    (min 100 (j.percentComplete + 35) < 100 →
      job_status st h jobId now =
        (.okJob { j with percentComplete := min 100 (j.percentComplete + 35) },
         { st with
             jobs := updateAssoc st.jobs jobId
               ({ j with percentComplete := min 100 (j.percentComplete + 35) }) })) ∧
    (min 100 (j.percentComplete + 35) = 100 →
      (job_status st h jobId now).1 =
        .okJob { j with percentComplete := 100, status := "SUCCEEDED",
                        descriptiveStatus := "SUCCEEDED", endTime := some now } ∧
      lookupA (job_status st h jobId now).2.jobs jobId =
        some { j with percentComplete := 100, status := "SUCCEEDED",
                      descriptiveStatus := "SUCCEEDED", endTime := some now } ∧
      lookupA (job_status st h jobId now).2.jobDetails jobId =
        some (logs ++ [succEntry]) ∧ succEntry.severity = .INFO) := by
  have hred : job_status st h jobId now =
      if min 100 (j.percentComplete + 35) ≥ 100 then
        (.okJob { j with percentComplete := min 100 (j.percentComplete + 35),
                         status := "SUCCEEDED", descriptiveStatus := "SUCCEEDED",
                         endTime := some now },
         { jobs :=
             updateAssoc st.jobs jobId
               ({ j with percentComplete := min 100 (j.percentComplete + 35),
                         status := "SUCCEEDED", descriptiveStatus := "SUCCEEDED",
                         endTime := some now }),
           jobDetails := appendAt st.jobDetails jobId succEntry })
      else
        (.okJob { j with percentComplete := min 100 (j.percentComplete + 35) },
         { st with
             jobs := updateAssoc st.jobs jobId
               ({ j with percentComplete := min 100 (j.percentComplete + 35) }) }) := by
    simp only [job_status, hauth, hjob]
    rw [if_pos hrun, if_neg (fun hc => hnofail hc.1)]
  refine ⟨?_, ?_, ?_⟩
  · by_cases hc : min 100 (j.percentComplete + 35) ≥ 100
    · rw [hred, if_pos hc]
      exact ⟨_, rfl, rfl⟩
    · rw [hred, if_neg hc]
      exact ⟨_, rfl, rfl⟩
  · intro hc
    rw [hred, if_neg (by omega)]
  · intro hc
    rw [hred, if_pos (by omega), hc]
    refine ⟨rfl, ?_, ?_, rfl⟩
    · rw [lookupA_updateAssoc, hjob]
      rfl
    · rw [lookupA_appendAt, hlogs]
      rfl

/-- C1 witness: a concrete RUNNING job at 65 percent polled without the
failure signal reaches 100, transitions to SUCCEEDED with `endTime` set, and
gets exactly the one extra INFO entry. -/
theorem C1_poll_progress_and_success_witness :
    let j : Job :=
      { jobId := "1", jobType := "RULES", jobName := "RollupUSSales",
        status := "RUNNING", descriptiveStatus := "RUNNING", percentComplete := 65,
        startTime := "t0", endTime := none, application := "Vision", parameters := [] }
    let e : LogEntry := ⟨.INFO, "MESSAGE", none, "Job RollupUSSales started."⟩
    let st : ServerState := { jobs := [("1", j)], jobDetails := [("1", [e])] }
    let h : Headers := { authMode := none, rateLimit := none, failJob := none }
    (job_status st h "1" "t1").1 =
      .okJob { j with percentComplete := 100, status := "SUCCEEDED",
                      descriptiveStatus := "SUCCEEDED", endTime := some "t1" } ∧
    lookupA (job_status st h "1" "t1").2.jobDetails "1" =
      some ([e] ++ [succEntry]) := by
  intro j e st h
  have hm := C1_poll_progress_and_success st h "1" "t1" j [e]
    (by decide) (by decide) (by decide) (by decide) rfl
  have hc := hm.2.2 (by decide)
  exact ⟨hc.1, hc.2.2.1⟩

/-- C2: polling `job_status` on a RUNNING job with the failure signal active
transitions to FAILED on the first poll whose incremented `percentComplete`
is at least 70, setting `endTime` and appending exactly one ERROR entry
"Simulated failure occurred."; below 70 the job stays RUNNING with no entry
appended; and because the failure rule is checked before the success rule, a
poll reaching 100 with the signal active still yields FAILED, never
SUCCEEDED. -/
theorem C2_poll_failure_signal (st : ServerState) (h : Headers)
    (jobId now : String) (j : Job) (logs : List LogEntry)
    (hauth : require_auth h = none)
    (hfail : lowerStr (h.failJob.getD "") = "true")
    (hjob : lookupA st.jobs jobId = some j)
    (hlogs : lookupA st.jobDetails jobId = some logs)
    (hrun : j.status = "RUNNING") :
    (min 100 (j.percentComplete + 35) ≥ 70 →
      (job_status st h jobId now).1 =
        .okJob { j with percentComplete := min 100 (j.percentComplete + 35),
                        status := "FAILED", descriptiveStatus := "FAILED",
                        endTime := some now } ∧
      lookupA (job_status st h jobId now).2.jobs jobId =
        some { j with percentComplete := min 100 (j.percentComplete + 35),
                      status := "FAILED", descriptiveStatus := "FAILED",
                      endTime := some now } ∧
      lookupA (job_status st h jobId now).2.jobDetails jobId =
        some (logs ++ [failEntry]) ∧ failEntry.severity = .ERROR) ∧
    (min 100 (j.percentComplete + 35) < 70 →
      job_status st h jobId now =
        (.okJob { j with percentComplete := min 100 (j.percentComplete + 35) },
         { st with
             jobs := updateAssoc st.jobs jobId
               ({ j with percentComplete := min 100 (j.percentComplete + 35) }) })) ∧
    (min 100 (j.percentComplete + 35) = 100 →
      ∀ j', (job_status st h jobId now).1 = .okJob j' → j'.status = "FAILED") := by
  have hred : job_status st h jobId now =
      if min 100 (j.percentComplete + 35) ≥ 70 then
        (.okJob { j with percentComplete := min 100 (j.percentComplete + 35),
                         status := "FAILED", descriptiveStatus := "FAILED",
                         endTime := some now },
         { jobs :=
             updateAssoc st.jobs jobId
               ({ j with percentComplete := min 100 (j.percentComplete + 35),
                         status := "FAILED", descriptiveStatus := "FAILED",
                         endTime := some now }),
           jobDetails := appendAt st.jobDetails jobId failEntry })
      else
        (.okJob { j with percentComplete := min 100 (j.percentComplete + 35) },
         { st with
             jobs := updateAssoc st.jobs jobId
               ({ j with percentComplete := min 100 (j.percentComplete + 35) }) }) := by
    simp only [job_status, hauth, hjob]
    rw [if_pos hrun]
    by_cases hc : min 100 (j.percentComplete + 35) ≥ 70
    · rw [if_pos ⟨hfail, hc⟩, if_pos hc]
    · rw [if_neg (fun hh => hc hh.2), if_neg hc,
          if_neg (fun hh => hc (le_trans (by omega) hh))]
  refine ⟨?_, ?_, ?_⟩
  · intro hc
    rw [hred, if_pos hc]
    refine ⟨rfl, ?_, ?_, rfl⟩
    · rw [lookupA_updateAssoc, hjob]
      rfl
    · rw [lookupA_appendAt, hlogs]
      rfl
  · intro hc
    rw [hred, if_neg (by omega)]
  · intro hc j' hj'
    rw [hred, if_pos (by omega)] at hj'
    injection hj' with hj'
    rw [← hj']

/-- C2 witness: a RUNNING job at 65 percent polled with `X-Fail-Job: true`
reaches 100 yet transitions to FAILED (not SUCCEEDED) with the one extra
ERROR entry; a RUNNING job at 0 percent stays RUNNING on such a poll. -/
theorem C2_poll_failure_signal_witness :
    let mk : Int → Job := fun pc =>
      { jobId := "1", jobType := "RULES", jobName := "RollupUSSales",
        status := "RUNNING", descriptiveStatus := "RUNNING", percentComplete := pc,
        startTime := "t0", endTime := none, application := "Vision", parameters := [] }
    let e : LogEntry := ⟨.INFO, "MESSAGE", none, "Job RollupUSSales started."⟩
    let h : Headers := { authMode := none, rateLimit := none, failJob := some "true" }
    (job_status { jobs := [("1", mk 65)], jobDetails := [("1", [e])] } h "1" "t1").1 =
      .okJob { mk 65 with percentComplete := 100, status := "FAILED",
                          descriptiveStatus := "FAILED", endTime := some "t1" } ∧
    lookupA (job_status { jobs := [("1", mk 65)], jobDetails := [("1", [e])] }
        h "1" "t1").2.jobDetails "1" = some ([e] ++ [failEntry]) ∧
    job_status { jobs := [("1", mk 0)], jobDetails := [("1", [e])] } h "1" "t1" =
      (.okJob { mk 0 with percentComplete := 35 },
       { jobs := [("1", ({ mk 0 with percentComplete := 35 } : Job))],
         jobDetails := [("1", [e])] }) := by
  intro mk e h
  have h65 := (C2_poll_failure_signal { jobs := [("1", mk 65)], jobDetails := [("1", [e])] }
    h "1" "t1" (mk 65) [e] (by decide) (by decide) (by decide) (by decide) rfl).1 (by decide)
  have h0 := (C2_poll_failure_signal { jobs := [("1", mk 0)], jobDetails := [("1", [e])] }
    h "1" "t1" (mk 0) [e] (by decide) (by decide) (by decide) (by decide) rfl).2.1 (by decide)
  exact ⟨h65.1, h65.2.2.1, h0⟩

/-- C3: a submission with non-empty `jobType` and `jobName`, no auth-failure
signal, and no rate-limit signal creates a job in RUNNING state with
`percentComplete` 0, `endTime` unset, under a job id not previously in the
store (the id is derived from the submission timestamp), seeds its log with
exactly the 2 initial entries (both INFO), and returns the created job's id
and RUNNING status. -/
theorem C3_submit_valid_creates_running_job (st : ServerState) (h : Headers)
    (appname jt jn : String) (params : List (String × String)) (now jobId : String)
    (hauth : require_auth h = none)
    (hjt : jt ≠ "") (hjn : jn ≠ "")
    (hrl : lowerStr (h.rateLimit.getD "") ≠ "429")
    (hfresh1 : lookupA st.jobs jobId = none)
    (hfresh2 : lookupA st.jobDetails jobId = none) :
    (execute_job st h appname (some jt) (some jn) params now jobId).1 =
      .created jobId "RUNNING" "RUNNING" ∧
    lookupA (execute_job st h appname (some jt) (some jn) params now jobId).2.jobs jobId =
      some { jobId := jobId, jobType := jt, jobName := jn, status := "RUNNING",
             descriptiveStatus := "RUNNING", percentComplete := 0, startTime := now,
             endTime := none, application := appname, parameters := params } ∧
    lookupA (execute_job st h appname (some jt) (some jn) params now jobId).2.jobDetails jobId =
      some (initialLogs jt jn params) ∧
    (initialLogs jt jn params).length = 2 ∧
    ∀ entry ∈ initialLogs jt jn params, entry.severity = .INFO := by
  have hred : execute_job st h appname (some jt) (some jn) params now jobId =
      (.created jobId "RUNNING" "RUNNING",
       { jobs := insertAssoc st.jobs jobId
           { jobId := jobId, jobType := jt, jobName := jn, status := "RUNNING",
             descriptiveStatus := "RUNNING", percentComplete := 0, startTime := now,
             endTime := none, application := appname, parameters := params },
         jobDetails := insertAssoc st.jobDetails jobId (initialLogs jt jn params) }) := by
    simp only [execute_job, hauth]
    rw [if_neg (by simp [hjt, hjn]), if_neg hrl]
    rfl
  rw [hred]
  refine ⟨rfl, ?_, ?_, rfl, ?_⟩
  · rw [insertAssoc_of_fresh _ hfresh1]
    exact lookupA_append_fresh _ hfresh1
  · rw [insertAssoc_of_fresh _ hfresh2]
    exact lookupA_append_fresh _ hfresh2
  · intro entry he
    simp only [initialLogs, List.mem_cons, List.mem_singleton] at he
    rcases he with he | he | he
    · rw [he]
    · rw [he]
    · exact absurd he (by simp)

/-- C3 witness: a concrete valid submission into an empty store. -/
theorem C3_submit_valid_creates_running_job_witness :
    let h : Headers := { authMode := none, rateLimit := none, failJob := none }
    (execute_job { jobs := [], jobDetails := [] } h "Vision" (some "RULES")
        (some "RollupUSSales") [] "t0" "1700000000000").1 =
      .created "1700000000000" "RUNNING" "RUNNING" ∧
    lookupA (execute_job { jobs := [], jobDetails := [] } h "Vision" (some "RULES")
        (some "RollupUSSales") [] "t0" "1700000000000").2.jobDetails "1700000000000" =
      some (initialLogs "RULES" "RollupUSSales" []) ∧
    (initialLogs "RULES" "RollupUSSales" []).length = 2 := by
  intro h
  have hm := C3_submit_valid_creates_running_job { jobs := [], jobDetails := [] }
    h "Vision" "RULES" "RollupUSSales" [] "t0" "1700000000000"
    (by decide) (by decide) (by decide) (by decide) rfl rfl
  exact ⟨hm.1, hm.2.2.1, hm.2.2.2.1⟩

/-- C4: under a passing auth gate, `execute_job` fails with the validation
error exactly when `jobType` or `jobName` is falsy (empty or absent), and —
given truthy fields — fails with the throttled error exactly when the
rate-limit signal is set; the validation iff holds whatever the rate-limit
header says, which is the validation-before-throttle evaluation order; and
on every failure outcome (auth denial, validation, throttle) the returned
state is exactly the input state: no job record and no log entries. -/
theorem C4_submit_failure_paths (st : ServerState) (h : Headers)
    (appname : String) (jt jn : Option String) (params : List (String × String))
    (now jobId : String) :
    (require_auth h = none →
      ((execute_job st h appname jt jn params now jobId).1 =
          .validationError "jobType and jobName are required" ↔
        (jt.getD "" = "" ∨ jn.getD "" = ""))) ∧
    (require_auth h = none → jt.getD "" ≠ "" → jn.getD "" ≠ "" →
      ((execute_job st h appname jt jn params now jobId).1 =
          .throttled "Too Many Requests (simulated)" ↔
        lowerStr (h.rateLimit.getD "") = "429")) ∧
    (∀ c m, (execute_job st h appname jt jn params now jobId).1 = .authDenied c m →
      (execute_job st h appname jt jn params now jobId).2 = st) ∧
    (∀ m, (execute_job st h appname jt jn params now jobId).1 = .validationError m →
      (execute_job st h appname jt jn params now jobId).2 = st) ∧
    (∀ m, (execute_job st h appname jt jn params now jobId).1 = .throttled m →
      (execute_job st h appname jt jn params now jobId).2 = st) := by
  rcases hA : require_auth h with _ | cm
  · simp only [execute_job, hA]
    by_cases hv : jt.getD "" = "" ∨ jn.getD "" = ""
    · rw [if_pos hv]
      refine ⟨fun _ => by simp [hv], fun _ hjt hjn => ?_, ?_, ?_, ?_⟩
      · exact absurd hv (by simp [hjt, hjn])
      · intro c m hc; exact absurd hc (by simp)
      · intro m hc; rfl
      · intro m hc; exact absurd hc (by simp)
    · rw [if_neg hv]
      by_cases hr : lowerStr (h.rateLimit.getD "") = "429"
      · rw [if_pos hr]
        refine ⟨fun _ => ?_, fun _ _ _ => by simp [hr], ?_, ?_, ?_⟩
        · constructor
          · intro hc; exact absurd hc (by simp)
          · intro hc; exact absurd hc (by simpa using hv)
        · intro c m hc; exact absurd hc (by simp)
        · intro m hc; exact absurd hc (by simp)
        · intro m hc; rfl
      · rw [if_neg hr]
        refine ⟨fun _ => ?_, fun _ _ _ => ?_, ?_, ?_, ?_⟩
        · constructor
          · intro hc; exact absurd hc (by simp)
          · intro hc; exact absurd hc (by simpa using hv)
        · constructor
          · intro hc; exact absurd hc (by simp)
          · intro hc; exact absurd hc hr
        · intro c m hc; exact absurd hc (by simp)
        · intro m hc; exact absurd hc (by simp)
        · intro m hc; exact absurd hc (by simp)
  · obtain ⟨c0, m0⟩ := cm
    simp [execute_job, hA]

/-- C4 witness: the three failure paths on concrete inputs leave the store
unchanged, and validation wins over a simultaneously signalled throttle. -/
theorem C4_submit_failure_paths_witness :
    let st : ServerState := { jobs := [], jobDetails := [] }
    let hboth : Headers := { authMode := none, rateLimit := some "429", failJob := none }
    ((execute_job st hboth "Vision" none (some "J") [] "t0" "1").1 =
      .validationError "jobType and jobName are required") ∧
    ((execute_job st hboth "Vision" (some "RULES") (some "J") [] "t0" "1").1 =
      .throttled "Too Many Requests (simulated)") ∧
    (execute_job st hboth "Vision" (some "RULES") (some "J") [] "t0" "1").2 = st := by
  intro st hboth
  have hm := C4_submit_failure_paths st hboth "Vision" none (some "J") [] "t0" "1"
  have hv := (hm.1 (by decide)).mpr (by decide)
  have hm2 := C4_submit_failure_paths st hboth "Vision" (some "RULES") (some "J") [] "t0" "1"
  have ht := (hm2.2.1 (by decide) (by decide) (by decide)).mpr (by decide)
  exact ⟨hv, ht, hm2.2.2.2.2 _ ht⟩

/-- C5: for an existing job, `job_details` returns the Python slice
`items[offset : offset + limit]` with `hasMore = (offset + limit) < total`;
for non-negative `offset`/`limit` that slice is the entries `[offset,
offset + limit)` in insertion order; a non-negative offset at or beyond the
log length (with non-negative limit) yields an empty page with `hasMore =
false`; and on a 2-entry log (a freshly submitted job) `offset = 0, limit =
2` returns exactly those 2 entries with `hasMore = false`. The route-level
defaults for the query parameters are 0 and 200. -/
theorem C5_details_paging (st : ServerState) (h : Headers) (jobId : String)
    (items : List LogEntry) (offset limit : Int)
    (hauth : require_auth h = none)
    (hitems : lookupA st.jobDetails jobId = some items) :
    (job_details st h jobId offset limit =
      .page (pySlice items offset (offset + limit)) offset limit
        (pySlice items offset (offset + limit)).length
        (decide (offset + limit < (items.length : Int)))) ∧
    (0 ≤ offset → 0 ≤ limit →
      pySlice items offset (offset + limit) =
        (items.drop offset.toNat).take limit.toNat) ∧
    (0 ≤ limit → (items.length : Int) ≤ offset →
      job_details st h jobId offset limit = .page [] offset limit 0 false) ∧
    (items.length = 2 →
      job_details st h jobId 0 2 = .page items 0 2 2 false) := by
  have hbase : ∀ o l : Int, job_details st h jobId o l =
      .page (pySlice items o (o + l)) o l (pySlice items o (o + l)).length
        (decide (o + l < (items.length : Int))) := by
    intro o l
    simp only [job_details, hauth, hitems]
  refine ⟨hbase offset limit, ?_, ?_, ?_⟩
  · intro ho hl
    rw [pySlice_nonneg items offset (offset + limit) ho (by omega)]
    congr 1
    omega
  · intro hl ho
    rw [hbase offset limit,
        pySlice_offset_past_end items offset (offset + limit) (by omega) ho]
    have hm : ¬(offset + limit < (items.length : Int)) := by omega
    simp [hm]
  · intro h2
    rcases List.length_eq_two.mp h2 with ⟨a, b, rfl⟩
    rw [hbase 0 2]
    rfl

/-- C5 witness: a 2-entry log paged with the defaults of interest: offset 0
limit 2 yields both entries with `hasMore = false`; offset 5 limit 200
yields the empty page with `hasMore = false`. -/
theorem C5_details_paging_witness :
    let e1 : LogEntry := ⟨.INFO, "MESSAGE", none, "a"⟩
    let e2 : LogEntry := ⟨.INFO, "MESSAGE", none, "b"⟩
    let st : ServerState := { jobs := [], jobDetails := [("1", [e1, e2])] }
    let h : Headers := { authMode := none, rateLimit := none, failJob := none }
    job_details st h "1" 0 2 = .page [e1, e2] 0 2 2 false ∧
    job_details st h "1" 5 200 = .page [] 5 200 0 false := by
  intro e1 e2 st h
  have hm := C5_details_paging st h "1" [e1, e2] 5 200 (by decide) (by decide)
  exact ⟨(C5_details_paging st h "1" [e1, e2] 0 2 (by decide) (by decide)).2.2.2 rfl,
    hm.2.2.1 (by decide) (by decide)⟩

/-- C10: for an existing job and a negative `offset` whose absolute value is
at most the log length, `job_details` applies Python slice semantics — with
the slice end at or past the log length it returns the last `-offset`
entries (no empty page, no error), and `hasMore` is still computed as
`(offset + limit) < total`, hence `false` here. -/
theorem C10_details_negative_offset (st : ServerState) (h : Headers)
    (jobId : String) (items : List LogEntry) (offset limit : Int)
    (hauth : require_auth h = none)
    (hitems : lookupA st.jobDetails jobId = some items)
    (hneg : offset < 0) (habs : 0 ≤ offset + (items.length : Int))
    (hlim : (items.length : Int) ≤ offset + limit) :
    job_details st h jobId offset limit =
      .page (items.drop (offset + items.length).toNat) offset limit
        (items.drop (offset + items.length).toNat).length
        (decide (offset + limit < (items.length : Int))) ∧
    decide (offset + limit < (items.length : Int)) = false := by
  have hbase : job_details st h jobId offset limit =
      .page (pySlice items offset (offset + limit)) offset limit
        (pySlice items offset (offset + limit)).length
        (decide (offset + limit < (items.length : Int))) := by
    simp only [job_details, hauth, hitems]
  rw [hbase, pySlice_neg_start_to_end items offset (offset + limit) hneg habs hlim]
  exact ⟨rfl, by simp; omega⟩

/-- C10 witness: offset -1 with limit 200 on a 2-entry log returns exactly
the last entry with `hasMore = false`. -/
theorem C10_details_negative_offset_witness :
    let e1 : LogEntry := ⟨.INFO, "MESSAGE", none, "a"⟩
    let e2 : LogEntry := ⟨.INFO, "MESSAGE", none, "b"⟩
    let st : ServerState := { jobs := [], jobDetails := [("1", [e1, e2])] }
    let h : Headers := { authMode := none, rateLimit := none, failJob := none }
    job_details st h "1" (-1) 200 = .page [e2] (-1) 200 1 false := by
  intro e1 e2 st h
  have hm := C10_details_negative_offset st h "1" [e1, e2] (-1) 200
    (by decide) (by decide) (by decide) (by decide) (by decide)
  rw [hm.1]
  rfl

/-- C6: the Simulator operations preserve the job-record invariant
(`status` equals `descriptiveStatus` and is one of RUNNING/SUCCEEDED/FAILED,
`endTime` is set iff the status is terminal, `percentComplete` stays in
0–100): both the submit path and the status-poll path map well-formed stores
to well-formed stores; every job returned by a poll is well formed with a
`percentComplete` no smaller than before the poll; and a poll on a terminal
job returns the identical record with the state (records and logs) entirely
unchanged. `job_details` returns without touching the state by
construction. -/
theorem C6_state_invariants (st : ServerState) (h : Headers)
    (appname : String) (jt jn : Option String)
    (params : List (String × String)) (now jobId : String) :
    (stateWF st → stateWF (execute_job st h appname jt jn params now jobId).2) ∧
    (stateWF st → stateWF (job_status st h jobId now).2) ∧
    (∀ j j', lookupA st.jobs jobId = some j → jobWF j →
      (job_status st h jobId now).1 = .okJob j' →
      jobWF j' ∧ j.percentComplete ≤ j'.percentComplete) ∧
    (∀ j, require_auth h = none → lookupA st.jobs jobId = some j →
      j.status ≠ "RUNNING" → job_status st h jobId now = (.okJob j, st)) := by
  refine ⟨?_, ?_, ?_, ?_⟩
  · -- submit preserves the invariant
    intro hwf
    rcases hA : require_auth h with _ | ⟨c, m⟩
    · simp only [execute_job, hA]
      by_cases hv : jt.getD "" = "" ∨ jn.getD "" = ""
      · rw [if_pos hv]; exact hwf
      · rw [if_neg hv]
        by_cases hr : lowerStr (h.rateLimit.getD "") = "429"
        · rw [if_pos hr]; exact hwf
        · rw [if_neg hr]
          intro p hp
          rcases mem_insertAssoc hp with hpv | hpl
          · rw [hpv]
            exact ⟨rfl, Or.inl rfl, by simp, le_refl 0, by norm_num⟩
          · exact hwf p hpl
    · simp only [execute_job, hA]
      exact hwf
  · -- polling preserves the invariant
    intro hwf
    rcases hA : require_auth h with _ | ⟨c, m⟩
    · rcases hL : lookupA st.jobs jobId with _ | j
      · rw [job_status_not_found st h jobId now hA hL]
        exact hwf
      by_cases hrun : j.status = "RUNNING"
      · have hwfj : jobWF j := hwf (jobId, j) (lookupA_mem hL)
        obtain ⟨hsd, _, het, hpc0, hpc100⟩ := hwfj
        have hb0 : (0 : Int) ≤ min 100 (j.percentComplete + 35) :=
          le_min (by norm_num) (by omega)
        have hb1 : min 100 (j.percentComplete + 35) ≤ 100 := min_le_left _ _
        rw [job_status_running_eq st h jobId now j hA hL hrun]
        by_cases hc1 : lowerStr (h.failJob.getD "") = "true" ∧
            min 100 (j.percentComplete + 35) ≥ 70
        · rw [if_pos hc1]
          intro p hp
          rcases mem_updateAssoc hp with hpv | hpl
          · rw [hpv]
            exact ⟨rfl, Or.inr (Or.inr rfl), by simp, hb0, hb1⟩
          · exact hwf p hpl
        · rw [if_neg hc1]
          by_cases hc2 : min 100 (j.percentComplete + 35) ≥ 100
          · rw [if_pos hc2]
            intro p hp
            rcases mem_updateAssoc hp with hpv | hpl
            · rw [hpv]
              exact ⟨rfl, Or.inr (Or.inl rfl), by simp, hb0, hb1⟩
            · exact hwf p hpl
          · rw [if_neg hc2]
            intro p hp
            rcases mem_updateAssoc hp with hpv | hpl
            · rw [hpv]
              exact ⟨hsd, Or.inl hrun, het, hb0, hb1⟩
            · exact hwf p hpl
      · rw [job_status_of_not_running st h jobId now j hA hL hrun]
        exact hwf
    · rw [job_status_auth_denied st h jobId now c m hA]
      exact hwf
  · -- the returned job is well formed and its percent is monotone
    intro j j' hL hwfj hok
    rcases hA : require_auth h with _ | ⟨c, m⟩
    · by_cases hrun : j.status = "RUNNING"
      · obtain ⟨hsd, _, het, hpc0, hpc100⟩ := hwfj
        have hb0 : (0 : Int) ≤ min 100 (j.percentComplete + 35) :=
          le_min (by norm_num) (by omega)
        have hb1 : min 100 (j.percentComplete + 35) ≤ 100 := min_le_left _ _
        have hmono : j.percentComplete ≤ min 100 (j.percentComplete + 35) :=
          le_min hpc100 (by omega)
        rw [job_status_running_eq st h jobId now j hA hL hrun] at hok
        by_cases hc1 : lowerStr (h.failJob.getD "") = "true" ∧
            min 100 (j.percentComplete + 35) ≥ 70
        · rw [if_pos hc1] at hok
          injection hok with hok
          rw [← hok]
          exact ⟨⟨rfl, Or.inr (Or.inr rfl), by simp, hb0, hb1⟩, hmono⟩
        · rw [if_neg hc1] at hok
          by_cases hc2 : min 100 (j.percentComplete + 35) ≥ 100
          · rw [if_pos hc2] at hok
            injection hok with hok
            rw [← hok]
            exact ⟨⟨rfl, Or.inr (Or.inl rfl), by simp, hb0, hb1⟩, hmono⟩
          · rw [if_neg hc2] at hok
            injection hok with hok
            rw [← hok]
            exact ⟨⟨hsd, Or.inl hrun, het, hb0, hb1⟩, hmono⟩
      · rw [job_status_of_not_running st h jobId now j hA hL hrun] at hok
        injection hok with hok
        rw [← hok]
        exact ⟨hwfj, le_refl _⟩
    · rw [job_status_auth_denied st h jobId now c m hA] at hok
      exact absurd hok (by simp)
  · -- a terminal job is frozen: the poll returns it and changes nothing
    intro j hA hL hterm
    exact job_status_of_not_running st h jobId now j hA hL hterm

/-- C6 witness: the invariant survives a submit and a poll on a concrete
well-formed store, and a poll on a concrete SUCCEEDED job returns the
identical record and state. -/
theorem C6_state_invariants_witness :
    let h : Headers := { authMode := none, rateLimit := none, failJob := none }
    let jR : Job :=
      { jobId := "1", jobType := "RULES", jobName := "R", status := "RUNNING",
        descriptiveStatus := "RUNNING", percentComplete := 35, startTime := "t0",
        endTime := none, application := "Vision", parameters := [] }
    let jT : Job :=
      { jobId := "2", jobType := "RULES", jobName := "R", status := "SUCCEEDED",
        descriptiveStatus := "SUCCEEDED", percentComplete := 100, startTime := "t0",
        endTime := some "t1", application := "Vision", parameters := [] }
    let st : ServerState :=
      { jobs := [("1", jR), ("2", jT)], jobDetails := [("1", []), ("2", [])] }
    stateWF (execute_job st h "Vision" (some "RULES") (some "R") [] "t2" "3").2 ∧
    stateWF (job_status st h "1" "t2").2 ∧
    job_status st h "2" "t2" = (.okJob jT, st) := by
  intro h jR jT st
  refine ⟨?_, ?_, ?_⟩
  · exact (C6_state_invariants st h "Vision" (some "RULES") (some "R") [] "t2" "3").1
      (by decide)
  · exact (C6_state_invariants st h "Vision" (some "RULES") (some "R") [] "t2" "1").2.1
      (by decide)
  · exact (C6_state_invariants st h "Vision" (some "RULES") (some "R") [] "t2" "2").2.2.2
      jT (by decide) (by decide) (by decide)

/-- C7: with a non-empty client credential configured, every one of the five
Gateway tools returns the unauthorized-client failure and issues zero remote
calls when the supplied credential argument is absent or different; and with
the exact matching credential each tool behaves identically to the
ungated Gateway — in particular (for well-formed arguments) it issues
exactly one remote call. (The FastMCP Gateway variant has no credential
field in its configuration at all, so the gate is vacuous there.) -/
theorem C7_credential_gate (cfg : GwCfg) (args : ToolArgs)
    (t : RCall → Transport) (k : String)
    (hk : cfg.client_api_key = some k) (hne : k ≠ "") :
    (args.client_api_key ≠ some k →
      tool_discover_versions cfg args t = (.unauthorizedClient, []) ∧
      tool_list_job_definitions cfg args t = (.unauthorizedClient, []) ∧
      tool_execute_job cfg args t = (.unauthorizedClient, []) ∧
      tool_get_job_status cfg args t = (.unauthorizedClient, []) ∧
      tool_get_job_details cfg args t = (.unauthorizedClient, [])) ∧
    (args.client_api_key = some k →
      tool_discover_versions cfg args t =
        tool_discover_versions { cfg with client_api_key := none } args t ∧
      tool_list_job_definitions cfg args t =
        tool_list_job_definitions { cfg with client_api_key := none } args t ∧
      tool_execute_job cfg args t =
        tool_execute_job { cfg with client_api_key := none } args t ∧
      tool_get_job_status cfg args t =
        tool_get_job_status { cfg with client_api_key := none } args t ∧
      tool_get_job_details cfg args t =
        tool_get_job_details { cfg with client_api_key := none } args t ∧
      (tool_discover_versions cfg args t).2.length = 1 ∧
      (tool_list_job_definitions cfg args t).2.length = 1 ∧
      (args.job_type.getD "" ≠ "" → args.job_name.getD "" ≠ "" →
        (tool_execute_job cfg args t).2.length = 1) ∧
      (args.job_id.getD "" ≠ "" →
        (tool_get_job_status cfg args t).2.length = 1 ∧
        (tool_get_job_details cfg args t).2.length = 1)) := by
  constructor
  · intro hmis
    have hgate : check_client_key cfg args = some .unauthorizedClient := by
      rw [check_client_key, if_pos]
      exact ⟨by rw [hk]; simpa using hne, by rw [hk]; exact hmis⟩
    refine ⟨?_, ?_, ?_, ?_, ?_⟩ <;>
      simp [tool_discover_versions, tool_list_job_definitions, tool_execute_job,
        tool_get_job_status, tool_get_job_details, hgate]
  · intro hmatch
    have hg1 : check_client_key cfg args = none := by
      rw [check_client_key, if_neg]
      intro hc
      exact hc.2 (by rw [hk, ← hmatch])
    have hg2 : check_client_key { cfg with client_api_key := none } args = none := by
      rw [check_client_key, if_neg]
      intro hc
      exact hc.1 (by rfl)
    refine ⟨?_, ?_, ?_, ?_, ?_, ?_, ?_, ?_, ?_⟩
    · simp only [tool_discover_versions, hg1, hg2]
      rfl
    · simp only [tool_list_job_definitions, hg1, hg2]
      rfl
    · simp only [tool_execute_job, hg1, hg2]
      rfl
    · simp only [tool_get_job_status, hg1, hg2]
      rfl
    · simp only [tool_get_job_details, hg1, hg2]
      rfl
    · simp only [tool_discover_versions, hg1, runReq]
      rfl
    · simp only [tool_list_job_definitions, hg1, runReq]
      rfl
    · intro hjt hjn
      simp only [tool_execute_job, hg1, runReq]
      rw [if_neg (by simp [hjt, hjn])]
      rfl
    · intro hjid
      constructor
      · simp only [tool_get_job_status, hg1, runReq]
        rw [if_neg hjid]
        rfl
      · simp only [tool_get_job_details, hg1, runReq]
        rw [if_neg hjid]
        rfl

/-- C7 witness: a concrete configured key "secret": a call with a wrong key
is rejected with zero calls, a call with the right key issues exactly one
call, on the execute tool. -/
theorem C7_credential_gate_witness :
    let cfg : GwCfg :=
      { base_url := "http://127.0.0.1:9010", application := "Vision",
        api_version := "v3", verify_ssl := true, client_api_key := some "secret",
        fake_auth_mode := none, fake_rate_limit := none, fake_fail_job := none }
    let bad : ToolArgs :=
      { client_api_key := some "wrong", api_version := none, application := none,
        job_type := some "RULES", job_name := some "R", parameters := none,
        job_id := none, offset := none, limit := none }
    let good : ToolArgs := { bad with client_api_key := some "secret" }
    let t : RCall → Transport := fun _ => .fail "connection refused"
    tool_execute_job cfg bad t = (.unauthorizedClient, []) ∧
    (tool_execute_job cfg good t).2.length = 1 := by
  intro cfg bad good t
  refine ⟨((C7_credential_gate cfg bad t "secret" rfl (by decide)).1
    (by decide)).2.2.1, ?_⟩
  exact ((C7_credential_gate cfg good t "secret" rfl (by decide)).2
    rfl).2.2.2.2.2.2.2.1 (by decide) (by decide)

/-- C8 counterexample: the claim says every Gateway remote call whose body
cannot be parsed as JSON yields `NetworkOrParseError`, and that every status
< 300 response is marked ok with the parsed JSON body. In the FastMCP
Gateway, the same exchange (status 200, unparseable body "oops") is marked
ok and carries the raw-text wrapper payload — its `req` has no
network-or-parse result shape at all — while the stdio Gateway's
`pbcs_request` does return `NETWORK_OR_PARSE_ERROR` for it. -/
theorem C8_counterexample_fastmcp_raw_text :
    req (.resp 200 "oops" (.error "Expecting value")) =
      .ok (.ok 200 (JVal.obj [("raw_text", JVal.str "oops")])) ∧
    pbcs_request "http://127.0.0.1:9010/HyperionPlanning/rest/"
        (.resp 200 "oops" (.error "Expecting value")) =
      .netOrParse "Expecting value" "http://127.0.0.1:9010/HyperionPlanning/rest/" :=
  ⟨rfl, rfl⟩

/-- C8 (amended): in the stdio Gateway, `pbcs_request` turns a transport
failure or an unparseable body into `NETWORK_OR_PARSE_ERROR` carrying the
attempted URL and the underlying message (hence its `HTTP_ERROR` results
always carry a parsed JSON body, the empty object for an empty body);
status ≥ 300 with a parseable-or-empty body yields `HTTP_ERROR` with the
status and that body; status < 300 is marked ok. In the FastMCP Gateway,
`req` instead preserves an unparseable body as a `raw_text` payload inside
the ok (status < 300) or `HTTP_ERROR` (status ≥ 300) result, and a
transport failure propagates as an uncaught exception. -/
theorem C8_request_normalization (url msg content e : String)
    (status : Nat) (v : JVal) (j : Except String JVal) :
    (pbcs_request url (.fail msg) = .netOrParse msg url) ∧
    (content ≠ "" → pbcs_request url (.resp status content (.error e)) =
      .netOrParse e url) ∧
    (content ≠ "" → pbcs_request url (.resp status content (.ok v)) =
      if status ≥ 300 then .httpError status v else .ok status v) ∧
    (pbcs_request url (.resp status "" j) =
      if status ≥ 300 then .httpError status (JVal.obj [])
      else .ok status (JVal.obj [])) ∧
    (req (.fail msg) = .error msg) ∧
    (content ≠ "" → req (.resp status content (.error e)) =
      .ok (if status ≥ 300 then
             .httpError status (JVal.obj [("raw_text", JVal.str content)])
           else .ok status (JVal.obj [("raw_text", JVal.str content)]))) ∧
    (content ≠ "" → req (.resp status content (.ok v)) =
      .ok (if status ≥ 300 then .httpError status v else .ok status v)) ∧
    (req (.resp status "" j) =
      .ok (if status ≥ 300 then .httpError status (JVal.obj [])
           else .ok status (JVal.obj []))) := by
  refine ⟨rfl, ?_, ?_, ?_, rfl, ?_, ?_, ?_⟩
  · intro hc
    simp only [pbcs_request]
    rw [if_neg hc]
  · intro hc
    simp only [pbcs_request]
    rw [if_neg hc]
  · by_cases hs : status ≥ 300 <;> simp [pbcs_request, hs]
  · intro hc
    simp only [req]
    rw [if_neg hc]
    by_cases hs : status ≥ 300
    · rw [if_pos hs, if_pos hs]
    · rw [if_neg hs, if_neg hs]
  · intro hc
    simp only [req]
    rw [if_neg hc]
    by_cases hs : status ≥ 300
    · rw [if_pos hs, if_pos hs]
    · rw [if_neg hs, if_neg hs]
  · by_cases hs : status ≥ 300 <;> simp [req, hs]

/-- C8 witness: the characterization applied to a concrete non-empty
unparseable body at status 500 and a concrete parseable body at 200. -/
theorem C8_request_normalization_witness :
    pbcs_request "http://x/p" (.resp 500 "oops" (.error "Expecting value")) =
      .netOrParse "Expecting value" "http://x/p" ∧
    req (.resp 500 "oops" (.error "Expecting value")) =
      .ok (.httpError 500 (JVal.obj [("raw_text", JVal.str "oops")])) ∧
    pbcs_request "http://x/p" (.resp 200 "ok-body" (.ok (JVal.obj [("jobId", JVal.str "1")]))) =
      .ok 200 (JVal.obj [("jobId", JVal.str "1")]) := by
  have hm := C8_request_normalization "http://x/p" "m" "oops" "Expecting value"
    500 (JVal.obj [("jobId", JVal.str "1")]) (.ok JVal.null)
  have hm2 := C8_request_normalization "http://x/p" "m" "ok-body" "e"
    200 (JVal.obj [("jobId", JVal.str "1")]) (.ok JVal.null)
  refine ⟨hm.2.1 (by decide), ?_, ?_⟩
  · rw [hm.2.2.2.2.2.1 (by decide)]
    rfl
  · rw [hm2.2.2.1 (by decide)]
    rfl

/-- C9: the dispatch boundary produces exactly one structured response for
every non-blank line and never crashes (`dispatch_line` is a total
function): a line rejected by the JSON parser gets the protocol-level
"Invalid JSON" error response; a `tools/call` request naming no registered
tool gets the unknown-tool failure result (not a protocol error); a tool
function that raises has its exception caught and reported as the generic
tool-execution failure result; a tool that returns normally has its result
sent. The last conjunct instantiates unknown-tool handling at the concrete
`TOOLS` registry. -/
theorem C9_dispatch_boundary
    (tools : String → Option (ToolArgs → Except String ToolResult))
    (l : Line) (id : Option JVal) (name : Option String) (args : ToolArgs) :
    (l ≠ .blank → ∃ r, dispatch_line tools l = some r) ∧
    (dispatch_line tools .malformed = some (.protoError none "Invalid JSON")) ∧
    (name.bind tools = none →
      dispatch_line tools (.request id (some "tools/call") name args) =
        some (.unknownTool id name)) ∧
    (∀ fn msg, name.bind tools = some fn → fn args = .error msg →
      dispatch_line tools (.request id (some "tools/call") name args) =
        some (.toolException id msg)) ∧
    (∀ fn r, name.bind tools = some fn → fn args = .ok r →
      dispatch_line tools (.request id (some "tools/call") name args) =
        some (.toolResult id r)) ∧
    (∀ cfg t n, TOOLS cfg t n = none →
      dispatch_line (TOOLS cfg t) (.request id (some "tools/call") (some n) args) =
        some (.unknownTool id (some n))) := by
  have hm : ¬(some "tools/call" ≠ some "tools/call") := by simp
  refine ⟨?_, rfl, ?_, ?_, ?_, ?_⟩
  · intro hl
    cases l with
    | blank => exact absurd rfl hl
    | malformed => exact ⟨_, rfl⟩
    | request i m n a =>
      simp only [dispatch_line]
      by_cases hmm : m ≠ some "tools/call"
      · rw [if_pos hmm]
        exact ⟨_, rfl⟩
      · rw [if_neg hmm]
        cases hb : n.bind tools with
        | none => exact ⟨_, rfl⟩
        | some fn =>
          cases hf : fn a with
          | ok r => exact ⟨.toolResult i r, by simp [hf]⟩
          | error msg => exact ⟨.toolException i msg, by simp [hf]⟩
  · intro hb
    simp only [dispatch_line, hb]
    rw [if_neg hm]
  · intro fn msg hb hf
    simp only [dispatch_line, hb, hf]
    rw [if_neg hm]
  · intro fn r hb hf
    simp only [dispatch_line, hb, hf]
    rw [if_neg hm]
  · intro cfg t n hn
    simp [dispatch_line, hn]

/-- C9 witness: concrete lines through a registry holding one raising tool:
the malformed line, an unknown tool, a raised exception, and a normal
result each get exactly their one response. -/
theorem C9_dispatch_boundary_witness :
    let tools : String → Option (ToolArgs → Except String ToolResult) :=
      fun n => if n = "boom" then some (fun _ => .error "kaput")
               else if n = "fine" then some (fun _ => .ok .unauthorizedClient)
               else none
    let args : ToolArgs :=
      { client_api_key := none, api_version := none, application := none,
        job_type := none, job_name := none, parameters := none,
        job_id := none, offset := none, limit := none }
    dispatch_line tools .malformed = some (.protoError none "Invalid JSON") ∧
    dispatch_line tools (.request none (some "tools/call") (some "nope") args) =
      some (.unknownTool none (some "nope")) ∧
    dispatch_line tools (.request none (some "tools/call") (some "boom") args) =
      some (.toolException none "kaput") ∧
    dispatch_line tools (.request none (some "tools/call") (some "fine") args) =
      some (.toolResult none .unauthorizedClient) := by
  intro tools args
  have hm := C9_dispatch_boundary tools .malformed none (some "nope") args
  have hb := C9_dispatch_boundary tools .malformed none (some "boom") args
  have hf := C9_dispatch_boundary tools .malformed none (some "fine") args
  exact ⟨hm.2.1, hm.2.2.1 rfl,
    hb.2.2.2.1 (fun _ => .error "kaput") "kaput" rfl rfl,
    hf.2.2.2.2.1 (fun _ => .ok .unauthorizedClient) .unauthorizedClient rfl rfl⟩

end PBCS
